import Mathlib

/-!
Shallow embedding of the jellypatrol session-policy program (src/jellypatrol.py).

The program polls media servers and decides, per playback session, whether to
terminate a server-side transcode.  The decision logic is embedded here as
executable Lean functions, translated from the Python source:

* `is_strm_file`, `is_user_whitelisted` — helper predicates (lines 89-107);
* `check_video_transcode` — the video decision (lines 153-254), decomposed into
  `session_item_id`, `resolve_media_streams`, `find_video_stream`,
  `session_reasons`, `meets_threshold`, `is_hdr_tonemapping`,
  `filtered_reasons` and `video_decision_core`;
* `check_audio_transcode` — the audio decision (lines 256-298);
* `evaluate_session` — the per-session dispatch of
  `check_and_kill_transcodes_for_server` (lines 335-369);
* `send_message_to_session`, `terminate_session`, `process_session` — the
  action executor (lines 135-151, 300-315), modelled as the list of remote
  calls attempted.

JSON dictionaries are modelled by structures whose optional fields are
`Option`-valued exactly where the Python code distinguishes absence (via
truthiness or `.get` without a default); fields read with `.get(key, d)`
keep the `Option` and the default is applied at the use site, mirroring the
source line by line.
-/

namespace JellyPatrol

/-- One entry of a `MediaStreams` array.  `streamType` is the JSON `Type`
field; `width`, `height`, `videoRange` are read in the source with
`.get("Width", 0)`, `.get("Height", 0)`, `.get("VideoRange", "SDR")`. -/
structure MediaStream where
  streamType : Option String
  width : Option Nat
  height : Option Nat
  videoRange : Option String
deriving DecidableEq, Repr

/-- The `NowPlayingItem` dictionary of a session. `path` and `container` are
read with default `""`; `id` is `.get("Id")` (no default); `mediaType` is
`.get("MediaType")`. -/
structure NowPlayingItem where
  id : Option String
  mediaType : Option String
  path : String
  container : String
  mediaStreams : List MediaStream
deriving DecidableEq, Repr

/-- Result of `get_item_details`: `MediaSources` (a list of sources, each with
its own `MediaStreams`) and the top-level `MediaStreams` fallback. -/
structure ItemDetails where
  mediaSources : List (List MediaStream)
  mediaStreams : List MediaStream
deriving DecidableEq, Repr

/-- One server-reported session.  `nowPlayingItem = none` models a missing or
empty (falsy) `NowPlayingItem`; `transcodingInfo = some rs` models a truthy
`TranscodingInfo` dictionary whose `TranscodeReasons` is `rs` (the source
reads it with `.get("TranscodeReasons", [])`), while `none` models an absent
or empty `TranscodingInfo`. `playMethod` is `PlayState.get("PlayMethod")`. -/
structure Session where
  sessionId : Option String
  userName : String
  playMethod : Option String
  nowPlayingItem : Option NowPlayingItem
  transcodingInfo : Option (List String)
deriving DecidableEq, Repr

/-- The operator configuration: the module-level globals of the source.
`targetWidth`/`targetHeight` come from `RESOLUTION_THRESHOLDS` via
`RESOLUTION_POLICY` (4K = (3840, 2160), 1080P = (1920, 1080),
ALL = (0, 0)). -/
structure Config where
  targetWidth : Nat
  targetHeight : Nat
  killStreams : Bool
  checkAudio : Bool
  allowContainerChanges : Bool
  ignoreStrmFiles : Bool
  whitelistedUsers : List String
  videoIndicators : List String
  audioIndicators : List String
deriving DecidableEq, Repr

/-- Python `str.lower()` on ASCII strings, implemented by structural
recursion over the character list so that concrete proofs can evaluate it. -/
def lower_str (s : String) : String := String.mk (s.data.map Char.toLower)

/-- Python `str.upper()` on ASCII strings, implemented by structural
recursion over the character list. -/
def upper_str (s : String) : String := String.mk (s.data.map Char.toUpper)

/-- Python `str.endswith(suffix)`, implemented over the character lists. -/
def ends_with_str (s suffix : String) : Bool := suffix.data.isSuffixOf s.data

/-- Default `VIDEO_TRANSCODE_INDICATORS` (source lines 34-37). -/
def default_video_indicators : List String :=
  ["VideoCodecNotSupported", "VideoResolutionNotSupported",
   "VideoBitrateNotSupported", "VideoFramerateNotSupported",
   "VideoLevelNotSupported", "VideoProfileNotSupported",
   "AnamorphicVideoNotSupported", "VideoRangeNotSupported",
   "VideoRangeTypeNotSupported", "ContainerNotSupported",
   "ContainerBitrateExceedsLimit"]

/-- Default `AUDIO_TRANSCODE_INDICATORS` (source lines 39-42). -/
def default_audio_indicators : List String :=
  ["AudioCodecNotSupported", "AudioBitrateNotSupported",
   "AudioChannelsNotSupported", "AudioSampleRateNotSupported",
   "AudioBitDepthNotSupported"]

/-- `hdr_transcode_reasons` (source line 214). -/
def hdr_transcode_reasons : List String :=
  ["VideoRangeNotSupported", "VideoRangeTypeNotSupported"]

/-- `container_reasons` (source line 230). -/
def container_reasons : List String :=
  ["ContainerNotSupported", "ContainerBitrateExceedsLimit"]

/-- `is_strm_file` (source lines 89-99): the item is served from a `.strm`
indirection file when its path ends in `.strm` (case-insensitively) or its
container equals `strm`. -/
def is_strm_file : Option NowPlayingItem → Bool
  | none => false
  | some item =>
      ends_with_str (lower_str item.path) ".strm"
        || lower_str item.container == "strm"

/-- `is_user_whitelisted` (source lines 101-107): case-insensitive membership
of the user name in the whitelist; false when the whitelist or the name is
empty. -/
def is_user_whitelisted (whitelist : List String) (user_name : String) : Bool :=
  if whitelist.isEmpty || user_name == "" then false
  else (whitelist.map lower_str).contains (lower_str user_name)

/-- `now_playing_item.get("Id")` as computed in `check_video_transcode`
(source line 158). -/
def session_item_id (s : Session) : Option String :=
  match s.nowPlayingItem with
  | none => none
  | some item => item.id

/-- `now_playing_item.get("MediaStreams", [])` (source line 169). -/
def npi_media_streams : Option NowPlayingItem → List MediaStream
  | none => []
  | some item => item.mediaStreams

/-- Resolution of the media-stream list in `check_video_transcode` (source
lines 165-176): on lookup failure fall back to the session-embedded streams;
otherwise prefer the first media source's streams, else the item's top-level
streams. -/
def resolve_media_streams (lookup : Option ItemDetails)
    (npi : Option NowPlayingItem) : List MediaStream :=
  match lookup with
  | none => npi_media_streams npi
  | some details =>
      match details.mediaSources with
      | [] => details.mediaStreams
      | src :: _ => src

/-- First stream with `Type == "Video"` (source lines 179-183). -/
def find_video_stream (streams : List MediaStream) : Option MediaStream :=
  streams.find? (fun st => st.streamType == some "Video")

/-- `transcoding_info.get("TranscodeReasons", [])`, with `[]` when the block
is absent (source lines 196-204 and 272-278). -/
def session_reasons (s : Session) : List String :=
  match s.transcodingInfo with
  | none => []
  | some rs => rs

/-- The resolution-policy gate (source line 207):
`original_width >= TARGET_WIDTH or original_height >= TARGET_HEIGHT`. -/
def meets_threshold (cfg : Config) (w h : Nat) : Bool :=
  decide (w ≥ cfg.targetWidth) || decide (h ≥ cfg.targetHeight)

/-- HDR tone-mapping detection (source lines 211-217): the video range is
truthy and not `SDR` (upper-cased), and some hardcoded HDR reason is among
the transcode reasons. -/
def is_hdr_tonemapping (vr : String) (reasons : List String) : Bool :=
  (vr != "") && (upper_str vr != "SDR")
    && hdr_transcode_reasons.any (fun r => reasons.contains r)

/-- Container-reason filtering (source lines 227-233): when container changes
are allowed, container-related reasons are removed. -/
def filtered_reasons (allow : Bool) (reasons : List String) : List String :=
  if allow then reasons.filter (fun r => !(container_reasons.contains r))
  else reasons

/-- The body of `check_video_transcode` after a video stream has been found
(source lines 206-254).  `has_ti` is the truthiness of `TranscodingInfo`. -/
def video_decision_core (cfg : Config) (has_ti : Bool) (vs : MediaStream)
    (reasons : List String) : Bool :=
  if meets_threshold cfg (vs.width.getD 0) (vs.height.getD 0) then
    if reasons.isEmpty && has_ti then true
    else if is_hdr_tonemapping (vs.videoRange.getD "SDR") reasons then true
    else (filtered_reasons cfg.allowContainerChanges reasons).any
      (fun r => cfg.videoIndicators.contains r)
  else false

/-- `check_video_transcode` (source lines 153-254), as the termination
decision.  Returns `false` immediately when the item id cannot be determined
(lines 160-162) or when no video stream is found (lines 185-187);
`lookup` is the result of the `get_item_details` call (`none` = failure). -/
def check_video_transcode (cfg : Config) (lookup : Option ItemDetails)
    (s : Session) : Bool :=
  match session_item_id s with
  | none => false
  | some _ =>
      match find_video_stream (resolve_media_streams lookup s.nowPlayingItem) with
      | none => false
      | some vs =>
          video_decision_core cfg s.transcodingInfo.isSome vs (session_reasons s)

/-- `check_audio_transcode` (source lines 256-298), as the termination
decision: fail-safe when reasons are empty but the transcoding-info block is
present, otherwise terminate iff some reason is an audio indicator. -/
def check_audio_transcode (cfg : Config) (s : Session) : Bool :=
  let reasons := session_reasons s
  if reasons.isEmpty && s.transcodingInfo.isSome then true
  else reasons.any (fun r => cfg.audioIndicators.contains r)

/-- Outcome of the per-session policy evaluation. -/
inductive Decision where
  | skip
  | terminate
deriving DecidableEq, Repr

/-- The per-session dispatch of `check_and_kill_transcodes_for_server`
(source lines 335-369): skip sessions without a playing item or id, then
whitelisted users, then `.strm` files when configured, then route video and
audio transcoding sessions to their checks; everything else is skipped. -/
def evaluate_session (cfg : Config) (lookup : Option ItemDetails)
    (s : Session) : Decision :=
  match s.nowPlayingItem, s.sessionId with
  | none, _ => Decision.skip
  | some _, none => Decision.skip
  | some npi, some _ =>
      if is_user_whitelisted cfg.whitelistedUsers s.userName then Decision.skip
      else if cfg.ignoreStrmFiles && is_strm_file (some npi) then Decision.skip
      else
        let is_transcoding := s.playMethod == some "Transcode"
        if npi.mediaType == some "Video" && is_transcoding then
          if check_video_transcode cfg lookup s then Decision.terminate
          else Decision.skip
        else if npi.mediaType == some "Audio" && is_transcoding
            && cfg.checkAudio then
          if check_audio_transcode cfg s then Decision.terminate
          else Decision.skip
        else Decision.skip

/-- A remote call against the session-control API. -/
inductive RemoteCall where
  | message (session_id : String)
  | stop (session_id : String)
deriving DecidableEq, Repr

/-- Environment of the fallible remote calls: whether each would succeed. -/
structure Env where
  messageSucceeds : Bool
  stopSucceeds : Bool
deriving DecidableEq, Repr

/-- `send_message_to_session` (source lines 135-151): attempts the message
call and reports success; its own failures are caught internally. -/
def send_message_to_session (env : Env) (session_id : String) :
    List RemoteCall × Bool :=
  ([RemoteCall.message session_id], env.messageSucceeds)

/-- `terminate_session` (source lines 300-315), modelled as the list of
remote calls attempted together with a dry-run flag.  When `kill_streams` is
set, the message call is attempted and its result is ignored (as in the
source, where `send_message_to_session` swallows its own failures), then the
stop call is attempted; otherwise no call is made and a dry-run observation
is recorded. -/
def terminate_session (kill_streams : Bool) (env : Env) (session_id : String) :
    List RemoteCall × Bool :=
  if kill_streams then
    let msg := send_message_to_session env session_id
    (msg.fst ++ [RemoteCall.stop session_id], false)
  else
    ([], true)

/-- One session's pass through the orchestrator including the action
executor: the remote calls issued for it (source lines 335-365). -/
def process_session (cfg : Config) (env : Env) (lookup : Option ItemDetails)
    (s : Session) : List RemoteCall :=
  match s.sessionId with
  | none => []
  | some sid =>
      if evaluate_session cfg lookup s = Decision.terminate then
        (terminate_session cfg.killStreams env sid).fst
      else []

/-! Concrete sample data used to instantiate the theorems below. -/

/-- The default 4K policy configuration with all toggles at their source
defaults except `checkAudio` (enabled so audio sessions are examined). -/
def cfg4k : Config :=
  { targetWidth := 3840, targetHeight := 2160, killStreams := true,
    checkAudio := true, allowContainerChanges := false,
    ignoreStrmFiles := false, whitelistedUsers := [],
    videoIndicators := default_video_indicators,
    audioIndicators := default_audio_indicators }

/-- The `ALL` resolution policy: threshold (0, 0). -/
def cfgAll : Config :=
  { cfg4k with targetWidth := 0, targetHeight := 0 }

/-- A 3840x2160 SDR video stream. -/
def vstream4k : MediaStream :=
  { streamType := some "Video", width := some 3840, height := some 2160,
    videoRange := some "SDR" }

/-- A 1920x1080 SDR video stream. -/
def vstream1080 : MediaStream :=
  { streamType := some "Video", width := some 1920, height := some 1080,
    videoRange := some "SDR" }

/-- A 3840x2160 HDR10 video stream. -/
def vstreamHdr : MediaStream :=
  { streamType := some "Video", width := some 3840, height := some 2160,
    videoRange := some "HDR10" }

/-- A playing item holding the 4K stream. -/
def npi4k : NowPlayingItem :=
  { id := some "item1", mediaType := some "Video", path := "/m/x.mkv",
    container := "mkv", mediaStreams := [vstream4k] }

/-- A playing item holding the 1080p stream. -/
def npi1080 : NowPlayingItem := { npi4k with mediaStreams := [vstream1080] }

/-- A playing item holding the HDR stream. -/
def npiHdr : NowPlayingItem := { npi4k with mediaStreams := [vstreamHdr] }

/-- A playing item with no item identifier. -/
def npiNoId : NowPlayingItem := { npi4k with id := none }

/-- An audio playing item. -/
def npiAudio : NowPlayingItem :=
  { id := some "i2", mediaType := some "Audio", path := "/m/a.flac",
    container := "flac", mediaStreams := [] }

/-- A transcoding 4K video session with one codec reason. -/
def sess4k : Session :=
  { sessionId := some "s1", userName := "alice",
    playMethod := some "Transcode", nowPlayingItem := some npi4k,
    transcodingInfo := some ["VideoCodecNotSupported"] }

/-- The 4K session with a present transcoding-info block and empty reasons. -/
def sess4kEmpty : Session := { sess4k with transcodingInfo := some [] }

/-- A 1080p session with a present transcoding-info block and empty reasons. -/
def sess1080Empty : Session :=
  { sessionId := some "s1", userName := "alice",
    playMethod := some "Transcode", nowPlayingItem := some npi1080,
    transcodingInfo := some [] }

/-- A 4K HDR session transcoding for video-range compatibility. -/
def sessHdr : Session :=
  { sessionId := some "s1", userName := "alice",
    playMethod := some "Transcode", nowPlayingItem := some npiHdr,
    transcodingInfo := some ["VideoRangeNotSupported"] }

/-- A 4K session whose only transcode reason is container-related. -/
def sessContainer : Session :=
  { sess4k with transcodingInfo := some ["ContainerNotSupported"] }

/-- A 4K session with a missing item identifier, transcoding-info present
with an empty reasons list. -/
def sessNoIdEmpty : Session :=
  { sessionId := some "s1", userName := "alice",
    playMethod := some "Transcode", nowPlayingItem := some npiNoId,
    transcodingInfo := some [] }

/-- A transcoding audio session with a matching trigger reason. -/
def sessAudio : Session :=
  { sessionId := some "s2", userName := "bob",
    playMethod := some "Transcode", nowPlayingItem := some npiAudio,
    transcodingInfo := some ["AudioCodecNotSupported"] }

/-! Helper lemmas shared by the claim theorems. -/

/-- Once an item id has been determined and a video stream found, the video
decision is `video_decision_core` on that stream and the session's reasons. -/
theorem check_video_transcode_eq_core (cfg : Config) (lookup : Option ItemDetails)
    (s : Session) (iid : String) (vs : MediaStream)
    (hid : session_item_id s = some iid)
    (hvs : find_video_stream (resolve_media_streams lookup s.nowPlayingItem) = some vs) :
    check_video_transcode cfg lookup s
      = video_decision_core cfg s.transcodingInfo.isSome vs (session_reasons s) := by
  unfold check_video_transcode
  rw [hid, hvs]

/-- Below the threshold the core decision is always `false`. -/
theorem video_decision_core_below (cfg : Config) (has_ti : Bool)
    (vs : MediaStream) (reasons : List String)
    (h : meets_threshold cfg (vs.width.getD 0) (vs.height.getD 0) = false) :
    video_decision_core cfg has_ti vs reasons = false := by
  unfold video_decision_core
  simp [h]

/-- A session whose item id cannot be determined is never terminated by the
video check. -/
theorem check_video_transcode_no_id (cfg : Config) (lookup : Option ItemDetails)
    (s : Session) (h : session_item_id s = none) :
    check_video_transcode cfg lookup s = false := by
  unfold check_video_transcode
  rw [h]

/-- A session in which no video stream can be found is never terminated by
the video check. -/
theorem check_video_transcode_no_stream (cfg : Config) (lookup : Option ItemDetails)
    (s : Session)
    (h : find_video_stream (resolve_media_streams lookup s.nowPlayingItem) = none) :
    check_video_transcode cfg lookup s = false := by
  unfold check_video_transcode
  cases hid : session_item_id s with
  | none => rfl
  | some iid => rw [h]

/-- C1: for a video session whose stream meets the resolution threshold and
whose transcoding-info block is present with an empty `transcode_reasons`
list, the decision is Terminate (fail-safe); and the threshold test is
applied first, so a session below the threshold yields Skip even with the
transcoding-info block present and reasons empty. -/
theorem video_empty_reasons_failsafe_after_threshold
    (cfg : Config) (lookup : Option ItemDetails) (s : Session)
    (iid : String) (vs : MediaStream)
    (hid : session_item_id s = some iid)
    (hvs : find_video_stream (resolve_media_streams lookup s.nowPlayingItem) = some vs)
    (hti : s.transcodingInfo = some []) :
    (meets_threshold cfg (vs.width.getD 0) (vs.height.getD 0) = true →
        check_video_transcode cfg lookup s = true)
    ∧ (meets_threshold cfg (vs.width.getD 0) (vs.height.getD 0) = false →
        check_video_transcode cfg lookup s = false) := by
  have hcore := check_video_transcode_eq_core cfg lookup s iid vs hid hvs
  have hrs : session_reasons s = [] := by simp [session_reasons, hti]
  have hsome : s.transcodingInfo.isSome = true := by simp [hti]
  constructor
  · intro hm
    rw [hcore, hrs, hsome]
    unfold video_decision_core
    simp [hm]
  · intro hm
    rw [hcore]
    exact video_decision_core_below cfg _ vs _ hm

/-- Witness for C1: the 4K session with empty reasons is terminated; the
1080p session with empty reasons is skipped under the 4K policy. -/
theorem video_empty_reasons_failsafe_witness :
    sess4kEmpty.transcodingInfo = some []
    ∧ check_video_transcode cfg4k none sess4kEmpty = true
    ∧ check_video_transcode cfg4k none sess1080Empty = false := by
  refine ⟨rfl, ?_, ?_⟩
  · exact (video_empty_reasons_failsafe_after_threshold cfg4k none sess4kEmpty
      "item1" vstream4k (by decide) (by decide) rfl).1 (by decide)
  · exact (video_empty_reasons_failsafe_after_threshold cfg4k none sess1080Empty
      "item1" vstream1080 (by decide) (by decide) rfl).2 (by decide)

/-- C2: for a video session meeting the resolution threshold whose source
video range is not SDR (a nonempty range string whose upper-casing differs
from `SDR`) and whose transcode reasons contain `VideoRangeNotSupported` or
`VideoRangeTypeNotSupported`, the decision is Terminate — for every value of
`allowContainerChanges` and every configured `videoIndicators` set, both of
which are universally quantified in `cfg`. -/
theorem video_hdr_tonemapping_override
    (cfg : Config) (lookup : Option ItemDetails) (s : Session)
    (iid : String) (vs : MediaStream) (rs : List String)
    (hid : session_item_id s = some iid)
    (hvs : find_video_stream (resolve_media_streams lookup s.nowPlayingItem) = some vs)
    (hm : meets_threshold cfg (vs.width.getD 0) (vs.height.getD 0) = true)
    (hti : s.transcodingInfo = some rs)
    (hvr0 : vs.videoRange.getD "SDR" ≠ "")
    (hvr : upper_str (vs.videoRange.getD "SDR") ≠ "SDR")
    (hr : "VideoRangeNotSupported" ∈ rs ∨ "VideoRangeTypeNotSupported" ∈ rs) :
    check_video_transcode cfg lookup s = true := by
  have hcore := check_video_transcode_eq_core cfg lookup s iid vs hid hvs
  have hrs : session_reasons s = rs := by simp [session_reasons, hti]
  have hhdr : is_hdr_tonemapping (vs.videoRange.getD "SDR") rs = true := by
    unfold is_hdr_tonemapping hdr_transcode_reasons
    rcases hr with h | h <;> simp [h, hvr0, hvr]
  rw [hcore, hrs]
  unfold video_decision_core
  rw [hm, hhdr]
  simp

/-- Witness for C2: the 4K HDR10 session transcoding for
`VideoRangeNotSupported` is terminated even with an empty trigger list and
container changes allowed. -/
theorem video_hdr_tonemapping_override_witness :
    sessHdr.transcodingInfo = some ["VideoRangeNotSupported"]
    ∧ check_video_transcode
        { cfg4k with videoIndicators := [], allowContainerChanges := true }
        none sessHdr = true := by
  refine ⟨rfl, ?_⟩
  exact video_hdr_tonemapping_override
    { cfg4k with videoIndicators := [], allowContainerChanges := true }
    none sessHdr "item1" vstreamHdr ["VideoRangeNotSupported"]
    (by decide) (by decide) (by decide) rfl (by decide) (by decide)
    (Or.inl (by decide))

/-- C3 counterexample: the claim says that for a video session whose source
stream data is unavailable — including a missing item identifier — the
resolution gate defaults to Skip but the empty-reasons fail-safe can still
fire from the transcode reasons alone.  Under the `ALL` policy (threshold
(0, 0), which the spec says every resolution — including absent data —
satisfies), a session with a missing item identifier and a transcoding-info
block present with empty reasons should then be terminated by the fail-safe;
the code instead returns Skip unconditionally, before any threshold or
fail-safe test. -/
theorem video_unavailable_source_counterexample :
    check_video_transcode cfgAll none sessNoIdEmpty = false := by decide

/-- C3 (amended): when the item identifier is missing, or no video stream
can be found in the resolved stream list, `check_video_transcode` returns
Skip unconditionally — the fail-safe cannot fire for such sessions.  Only
when the metadata lookup fails but the session itself embeds a video stream
does the engine proceed with that (degraded) stream data, and then the
empty-reasons fail-safe can still fire once the threshold is met. -/
theorem video_unavailable_source_skip
    (cfg : Config) (lookup : Option ItemDetails) (s : Session) :
    (session_item_id s = none → check_video_transcode cfg lookup s = false)
    ∧ (find_video_stream (resolve_media_streams lookup s.nowPlayingItem) = none →
        check_video_transcode cfg lookup s = false)
    ∧ (∀ iid vs, session_item_id s = some iid →
        find_video_stream (resolve_media_streams none s.nowPlayingItem) = some vs →
        meets_threshold cfg (vs.width.getD 0) (vs.height.getD 0) = true →
        s.transcodingInfo = some [] →
        check_video_transcode cfg none s = true) := by
  refine ⟨fun h => check_video_transcode_no_id cfg lookup s h,
    fun h => check_video_transcode_no_stream cfg lookup s h,
    fun iid vs hid hvs hm hti => ?_⟩
  have hcore := check_video_transcode_eq_core cfg none s iid vs hid hvs
  have hrs : session_reasons s = [] := by simp [session_reasons, hti]
  have hsome : s.transcodingInfo.isSome = true := by simp [hti]
  rw [hcore, hrs, hsome]
  unfold video_decision_core
  simp [hm]

/-- Witness for C3 (amended): the missing-id session is skipped even under
the `ALL` policy, and a lookup-failure session with an embedded 4K stream
and empty reasons is terminated by the fail-safe. -/
theorem video_unavailable_source_skip_witness :
    session_item_id sessNoIdEmpty = none
    ∧ check_video_transcode cfgAll none sessNoIdEmpty = false
    ∧ check_video_transcode cfg4k none sess4kEmpty = true := by
  refine ⟨rfl, ?_, ?_⟩
  · exact (video_unavailable_source_skip cfgAll none sessNoIdEmpty).1 rfl
  · exact (video_unavailable_source_skip cfg4k none sess4kEmpty).2.2
      "item1" vstream4k (by decide) (by decide) (by decide) rfl

/-- C4: the resolution threshold test passes exactly when source width ≥
threshold width OR source height ≥ threshold height; the bound is inclusive
(width equal to the threshold width passes); a session failing the test is
skipped regardless of its transcode reasons and the configured triggers;
the absent resolution (0, 0) never meets a nonzero threshold; and the `All`
policy threshold (0, 0) is met by every resolution. -/
theorem video_resolution_threshold_semantics
    (cfg : Config) (lookup : Option ItemDetails) (s : Session) (vs : MediaStream)
    (hvs : find_video_stream (resolve_media_streams lookup s.nowPlayingItem) = some vs) :
    (∀ w h, meets_threshold cfg w h = true ↔
        (w ≥ cfg.targetWidth ∨ h ≥ cfg.targetHeight))
    ∧ (∀ h, meets_threshold cfg cfg.targetWidth h = true)
    ∧ (0 < cfg.targetWidth → 0 < cfg.targetHeight →
        meets_threshold cfg 0 0 = false)
    ∧ (cfg.targetWidth = 0 → cfg.targetHeight = 0 →
        ∀ w h, meets_threshold cfg w h = true)
    ∧ (meets_threshold cfg (vs.width.getD 0) (vs.height.getD 0) = false →
        check_video_transcode cfg lookup s = false) := by
  refine ⟨fun w h => by simp [meets_threshold],
    fun h => by simp [meets_threshold],
    fun h1 h2 => by simp [meets_threshold] ; omega,
    fun h1 h2 w h => by simp [meets_threshold, h1],
    fun hm => ?_⟩
  cases hid : session_item_id s with
  | none => exact check_video_transcode_no_id cfg lookup s hid
  | some iid =>
      rw [check_video_transcode_eq_core cfg lookup s iid vs hid hvs]
      exact video_decision_core_below cfg _ vs _ hm

/-- Witness for C4: instantiated at the 4K policy and the 1080p session,
which is skipped although its only reason is a configured trigger. -/
theorem video_resolution_threshold_semantics_witness :
    meets_threshold cfg4k 3840 0 = true
    ∧ meets_threshold cfg4k 0 0 = false
    ∧ meets_threshold cfgAll 1 1 = true
    ∧ check_video_transcode cfg4k none
        { sess1080Empty with transcodingInfo := some ["VideoCodecNotSupported"] }
        = false := by
  have h := video_resolution_threshold_semantics cfg4k none
    { sess1080Empty with transcodingInfo := some ["VideoCodecNotSupported"] }
    vstream1080 (by decide)
  exact ⟨h.2.1 0, h.2.2.1 (by decide) (by decide),
    (video_resolution_threshold_semantics cfgAll none sess4k vstream4k
      (by decide)).2.2.2.1 rfl rfl 1 1,
    h.2.2.2.2 (by decide)⟩

/-- C5: for a video session meeting the threshold with nonempty transcode
reasons and no HDR override, when container changes are allowed the
container-related reason codes are removed before intersecting with the
configured video triggers: the decision is Terminate exactly when the
filtered reasons intersect `videoIndicators`, and in particular a session
whose only reason is `ContainerNotSupported` is skipped. -/
theorem video_container_change_filtering
    (cfg : Config) (lookup : Option ItemDetails) (s : Session)
    (iid : String) (vs : MediaStream) (rs : List String)
    (hid : session_item_id s = some iid)
    (hvs : find_video_stream (resolve_media_streams lookup s.nowPlayingItem) = some vs)
    (hm : meets_threshold cfg (vs.width.getD 0) (vs.height.getD 0) = true)
    (hti : s.transcodingInfo = some rs)
    (hne : rs ≠ [])
    (hnohdr : is_hdr_tonemapping (vs.videoRange.getD "SDR") rs = false)
    (hallow : cfg.allowContainerChanges = true) :
    (check_video_transcode cfg lookup s = true ↔
      ∃ r ∈ rs.filter (fun x => !(container_reasons.contains x)),
        r ∈ cfg.videoIndicators)
    ∧ (rs = ["ContainerNotSupported"] →
        check_video_transcode cfg lookup s = false) := by
  have hcore := check_video_transcode_eq_core cfg lookup s iid vs hid hvs
  have hrs : session_reasons s = rs := by simp [session_reasons, hti]
  have hemp : rs.isEmpty = false := by
    cases rs with
    | nil => exact absurd rfl hne
    | cons a l => rfl
  have hiff : check_video_transcode cfg lookup s = true ↔
      ∃ r ∈ rs.filter (fun x => !(container_reasons.contains x)),
        r ∈ cfg.videoIndicators := by
    rw [hcore, hrs]
    unfold video_decision_core filtered_reasons
    rw [hm, hemp, hnohdr, hallow]
    simp [List.any_eq_true]
    tauto
  refine ⟨hiff, fun hcont => ?_⟩
  subst hcont
  have hnot : ¬ (check_video_transcode cfg lookup s = true) := by
    rw [hiff]
    simp [container_reasons]
  simpa using hnot

/-- Witness for C5: under the 4K policy with container changes allowed, the
container-only session is skipped, and the codec-reason session terminates
exactly because `VideoCodecNotSupported` survives the filter and is a
configured trigger. -/
theorem video_container_change_filtering_witness :
    sessContainer.transcodingInfo = some ["ContainerNotSupported"]
    ∧ check_video_transcode { cfg4k with allowContainerChanges := true }
        none sessContainer = false
    ∧ check_video_transcode { cfg4k with allowContainerChanges := true }
        none sess4k = true := by
  refine ⟨rfl, ?_, ?_⟩
  · exact (video_container_change_filtering
      { cfg4k with allowContainerChanges := true } none sessContainer
      "item1" vstream4k ["ContainerNotSupported"]
      (by decide) (by decide) (by decide) rfl (by decide) (by decide) rfl).2 rfl
  · exact (video_container_change_filtering
      { cfg4k with allowContainerChanges := true } none sess4k
      "item1" vstream4k ["VideoCodecNotSupported"]
      (by decide) (by decide) (by decide) rfl (by decide) (by decide) rfl).1.mpr
      ⟨"VideoCodecNotSupported", by decide, by decide⟩

/-- C6: for an audio session, a disabled audio check yields Skip even when
trigger reasons are present; otherwise a present transcoding-info block with
empty reasons yields Terminate (fail-safe, with no resolution gate),
nonempty reasons yield Terminate exactly when one is a configured audio
trigger, and an absent block yields Skip. -/
theorem audio_session_rules
    (cfg : Config) (lookup : Option ItemDetails) (s : Session)
    (npi : NowPlayingItem)
    (hnpi : s.nowPlayingItem = some npi)
    (hmt : npi.mediaType = some "Audio") :
    (cfg.checkAudio = false → evaluate_session cfg lookup s = Decision.skip)
    ∧ (s.transcodingInfo = some [] → check_audio_transcode cfg s = true)
    ∧ (∀ rs, s.transcodingInfo = some rs → rs ≠ [] →
        (check_audio_transcode cfg s = true ↔ ∃ r ∈ rs, r ∈ cfg.audioIndicators))
    ∧ (s.transcodingInfo = none → check_audio_transcode cfg s = false) := by
  refine ⟨fun hca => ?_, fun hti => ?_, fun rs hti hne => ?_, fun hti => ?_⟩
  · unfold evaluate_session
    rw [hnpi]
    cases hsid : s.sessionId with
    | none => rfl
    | some sid => simp [hmt, hca]
  · unfold check_audio_transcode
    simp [session_reasons, hti]
  · have hrs : session_reasons s = rs := by simp [session_reasons, hti]
    have hemp : rs.isEmpty = false := by
      cases rs with
      | nil => exact absurd rfl hne
      | cons a l => rfl
    unfold check_audio_transcode
    rw [hrs]
    simp [hemp, List.any_eq_true]
  · unfold check_audio_transcode
    simp [session_reasons, hti]

/-- Witness for C6: the audio session with a matching trigger is skipped
when the audio check is disabled; empty reasons with the block present
terminate; the matching trigger terminates; an absent block is skipped. -/
theorem audio_session_rules_witness :
    sessAudio.transcodingInfo = some ["AudioCodecNotSupported"]
    ∧ evaluate_session { cfg4k with checkAudio := false } none sessAudio
        = Decision.skip
    ∧ check_audio_transcode cfg4k { sessAudio with transcodingInfo := some [] }
        = true
    ∧ check_audio_transcode cfg4k sessAudio = true
    ∧ check_audio_transcode cfg4k { sessAudio with transcodingInfo := none }
        = false := by
  refine ⟨rfl, ?_, ?_, ?_, ?_⟩
  · exact (audio_session_rules { cfg4k with checkAudio := false } none
      sessAudio npiAudio rfl rfl).1 rfl
  · exact (audio_session_rules cfg4k none
      { sessAudio with transcodingInfo := some [] } npiAudio rfl rfl).2.1 rfl
  · exact ((audio_session_rules cfg4k none sessAudio npiAudio rfl rfl).2.2.1
      ["AudioCodecNotSupported"] rfl (by decide)).mpr
      ⟨"AudioCodecNotSupported", by decide, by decide⟩
  · exact (audio_session_rules cfg4k none
      { sessAudio with transcodingInfo := none } npiAudio rfl rfl).2.2.2 rfl

/-- C7: a session whose play method is not `Transcode` is always skipped,
for every other snapshot field and every policy configuration; neither the
video nor the audio transcode check can produce Terminate for it. -/
theorem non_transcode_play_method_skip
    (cfg : Config) (lookup : Option ItemDetails) (s : Session)
    (h : s.playMethod ≠ some "Transcode") :
    evaluate_session cfg lookup s = Decision.skip := by
  unfold evaluate_session
  cases hnpi : s.nowPlayingItem with
  | none => rfl
  | some npi =>
      cases hsid : s.sessionId with
      | none => rfl
      | some sid => simp [h]

/-- Witness for C7: a direct-play 4K session with matching trigger reasons
is skipped. -/
theorem non_transcode_play_method_skip_witness :
    evaluate_session cfg4k none { sess4k with playMethod := some "DirectPlay" }
      = Decision.skip := by
  exact non_transcode_play_method_skip cfg4k none
    { sess4k with playMethod := some "DirectPlay" } (by decide)

/-- C8: a session whose user name matches a (nonempty) whitelist entry under
case-insensitive comparison is always skipped, regardless of every other
snapshot field and policy setting — in particular regardless of the strm
check, the play method and the media-type rules, which are evaluated only
after the whitelist rule.  The nonemptiness hypothesis reflects the source
configuration loader, which strips and drops empty whitelist entries. -/
theorem whitelisted_user_skip
    (cfg : Config) (lookup : Option ItemDetails) (s : Session) (u : String)
    (hu : u ∈ cfg.whitelistedUsers)
    (hun : s.userName ≠ "")
    (hmatch : lower_str u = lower_str s.userName) :
    evaluate_session cfg lookup s = Decision.skip := by
  have hw : is_user_whitelisted cfg.whitelistedUsers s.userName = true := by
    unfold is_user_whitelisted
    have hne : cfg.whitelistedUsers.isEmpty = false := by
      cases hl : cfg.whitelistedUsers with
      | nil => rw [hl] at hu ; exact absurd hu (List.not_mem_nil u)
      | cons a l => rfl
    rw [hne]
    simp [hun]
    exact ⟨u, hu, hmatch⟩
  unfold evaluate_session
  cases hnpi : s.nowPlayingItem with
  | none => rfl
  | some npi =>
      cases hsid : s.sessionId with
      | none => rfl
      | some sid => simp [hw]

/-- Witness for C8: the 4K transcoding session of user `alice` is skipped
when `ALICE` is whitelisted. -/
theorem whitelisted_user_skip_witness :
    "ALICE" ∈ (Config.whitelistedUsers { cfg4k with whitelistedUsers := ["ALICE"] })
    ∧ evaluate_session { cfg4k with whitelistedUsers := ["ALICE"] } none sess4k
        = Decision.skip := by
  refine ⟨by decide, ?_⟩
  exact whitelisted_user_skip { cfg4k with whitelistedUsers := ["ALICE"] }
    none sess4k "ALICE" (by decide) (by decide) (by decide)

/-- C9: with `kill_enabled` true, the executor attempts the message call and
then the stop call, and a failed message delivery (`messageSucceeds :=
false`) does not prevent the stop call from being attempted; with
`kill_enabled` false, neither call is performed and only the dry-run
observation is recorded. -/
theorem executor_message_failure_independence (env : Env) (sid : String) (b : Bool) :
    RemoteCall.stop sid ∈ (terminate_session true (Env.mk false b) sid).fst
    ∧ (terminate_session true env sid).fst
        = [RemoteCall.message sid, RemoteCall.stop sid]
    ∧ terminate_session false env sid = ([], true) := by
  refine ⟨?_, ?_, ?_⟩ <;>
    simp [terminate_session, send_message_to_session]

/-- C10: a session lacking a playing item or lacking a session id is skipped
before any policy rule is evaluated: the decision is Skip for every policy
configuration and lookup result, and no remote call (message or stop) is
ever issued for it. -/
theorem missing_item_or_id_skipped
    (cfg : Config) (env : Env) (lookup : Option ItemDetails) (s : Session)
    (h : s.nowPlayingItem = none ∨ s.sessionId = none) :
    evaluate_session cfg lookup s = Decision.skip
    ∧ process_session cfg env lookup s = [] := by
  have hskip : evaluate_session cfg lookup s = Decision.skip := by
    unfold evaluate_session
    rcases h with h | h
    · rw [h]
    · rw [h]
      cases s.nowPlayingItem <;> rfl
  refine ⟨hskip, ?_⟩
  unfold process_session
  cases hsid : s.sessionId with
  | none => rfl
  | some sid => simp [hskip]

/-- Witness for C10: a session with no playing item triggers no call even
though it would otherwise terminate, and likewise for a missing session id. -/
theorem missing_item_or_id_skipped_witness :
    (Session.nowPlayingItem { sess4k with nowPlayingItem := none }) = none
    ∧ evaluate_session cfg4k none { sess4k with nowPlayingItem := none }
        = Decision.skip
    ∧ process_session cfg4k (Env.mk true true) none
        { sess4k with nowPlayingItem := none } = []
    ∧ process_session cfg4k (Env.mk true true) none
        { sess4k with sessionId := none } = [] := by
  refine ⟨rfl, ?_, ?_, ?_⟩
  · exact (missing_item_or_id_skipped cfg4k (Env.mk true true) none
      { sess4k with nowPlayingItem := none } (Or.inl rfl)).1
  · exact (missing_item_or_id_skipped cfg4k (Env.mk true true) none
      { sess4k with nowPlayingItem := none } (Or.inl rfl)).2
  · exact (missing_item_or_id_skipped cfg4k (Env.mk true true) none
      { sess4k with sessionId := none } (Or.inr rfl)).2

end JellyPatrol
